import Mathlib

/-!
Verification of the TLS plugin interface contract of `fdbrpc/ITLSPlugin.h`.

The header declares three abstract interfaces (`ITLSPlugin`, `ITLSPolicy`,
`ITLSSession`), two transport callback types and the session status codes.
The only executable code in the repository is the status-code enum and the
inline `get_plugin_type_name_and_version`; the behaviour of policies and
sessions is specified by the header's documentation comments and by the
specification's state machine. Concrete behavioural definitions below are
therefore modelled from the spec, as noted on each one.
-/

namespace ITLS

/-! ### Status codes (from the `ITLSSession` enum, ITLSPlugin.h line 29) -/

def SUCCESS : Int := 0

def WANT_READ : Int := -1

def WANT_WRITE : Int := -2

def FAILED : Int := -3

/-! ### Plugin identification (ITLSPlugin.h line 148)

`get_plugin_type_name_and_version` is `static inline` and returns the string
literal `"ITLSPlugin"`. A C `const char*` result is modelled as
`Option String`, with `none` standing for a null pointer. The `Unit`
argument models a call site: every call yields the same value. -/

def get_plugin_type_name_and_version : Unit → Option String :=
  fun _ => some "ITLSPlugin"

/-! ### Policy model -/

/-- Modelled from the spec: the configuration slots held by an `ITLSPolicy`
backend (trust-root bundle, certificate chain, private key, peer-verification
rule set). The repository contains only the abstract `ITLSPolicy` interface;
the stored state is described by spec section 3. Byte buffers are `List Nat`. -/
structure PolicyConfig where
  ca_data : Option (List Nat)
  cert_data : Option (List Nat)
  key_data : Option (List Nat)
  verify_peers : List (List Nat)
deriving DecidableEq, Repr

/-- Modelled from the spec: an `ITLSPolicy` is its configuration plus the
locked flag that becomes true at the first `create_session` call. -/
structure Policy where
  config : PolicyConfig
  locked : Bool
deriving DecidableEq, Repr

/-- Modelled from the spec: backend-defined acceptance of configuration data
(PEM parsing, passphrase check, verification-rule encoding) is outside the
interface; it is abstracted as predicates saying whether the backend accepts
the supplied material. -/
structure Backend where
  ca_ok : List Nat → Bool
  cert_ok : List Nat → Bool
  key_ok : List Nat → Option String → Bool
  peers_ok : List (List Nat) → Bool

/-- Modelled from the spec: `set_ca_data` imports a trust-root bundle.
It fails immediately once the policy is locked, and a failure leaves the
configuration untouched. -/
def set_ca_data (b : Backend) (p : Policy) (d : List Nat) : Bool × Policy :=
  if p.locked then (false, p)
  else if b.ca_ok d then
    (true, { p with config := { p.config with ca_data := some d } })
  else (false, p)

/-- Modelled from the spec: `set_cert_data` imports a certificate chain.
It fails immediately once the policy is locked, and a failure leaves the
configuration untouched. -/
def set_cert_data (b : Backend) (p : Policy) (d : List Nat) : Bool × Policy :=
  if p.locked then (false, p)
  else if b.cert_ok d then
    (true, { p with config := { p.config with cert_data := some d } })
  else (false, p)

/-- Modelled from the spec: `set_key_data` imports a private key with an
optional passphrase. It fails immediately once the policy is locked, and a
failure (for example a wrong passphrase, rejected by the backend) leaves the
configuration untouched. -/
def set_key_data (b : Backend) (p : Policy) (d : List Nat)
    (password : Option String) : Bool × Policy :=
  if p.locked then (false, p)
  else if b.key_ok d password then
    (true, { p with config := { p.config with key_data := some d } })
  else (false, p)

/-- Modelled from the spec: `set_verify_peers` replaces the whole
verification rule set atomically; on failure none of the rules are applied.
It fails immediately once the policy is locked. -/
def set_verify_peers (b : Backend) (p : Policy) (rules : List (List Nat)) :
    Bool × Policy :=
  if p.locked then (false, p)
  else if b.peers_ok rules then
    (true, { p with config := { p.config with verify_peers := rules } })
  else (false, p)

/-! ### Session model -/

/-- Modelled from the spec: the session state machine
Handshaking → Established → Closed/Failed. -/
inductive SessState where
  | handshaking
  | established
  | failed
deriving DecidableEq, Repr

/-- Modelled from the spec: what the backend's handshake attempt achieves on
one call, determined by the underlying crypto engine and transport (outside
the repository): it completes, is blocked in one direction, or hits a fatal
error. -/
inductive HSAttempt where
  | complete
  | blockedRead
  | blockedWrite
  | error
deriving DecidableEq, Repr

/-- Modelled from the spec: what one read/write attempt achieves: `progress n`
means the engine moved `n` bytes (possibly 0, i.e. no forward progress),
otherwise it is blocked in one direction or hits a fatal error. -/
inductive IOAttempt where
  | progress (n : Nat)
  | blockedRead
  | blockedWrite
  | error
deriving DecidableEq, Repr

/-- Modelled from the spec: an `ITLSSession`, bound at creation to a role,
a server name, one pair of transport callbacks with their opaque contexts,
and a log-correlation identifier. `α` is the type of opaque pointers. -/
structure Session (α : Type) where
  state : SessState
  is_client : Bool
  servername : String
  send_func : α → List Nat → Int
  send_ctx : α
  recv_func : α → List Nat → Int
  recv_ctx : α
  uid : α

/-- Modelled from the spec: `create_session` returns a fresh Handshaking
session bound to the given callbacks and locks the policy, so that further
`set_*` calls fail. -/
def create_session {α : Type} (p : Policy) (is_client : Bool)
    (servername : String) (send_func : α → List Nat → Int) (send_ctx : α)
    (recv_func : α → List Nat → Int) (recv_ctx : α) (uid : α) :
    Session α × Policy :=
  (⟨SessState.handshaking, is_client, servername,
    send_func, send_ctx, recv_func, recv_ctx, uid⟩,
   { p with locked := true })

/-- Modelled from the spec: one `handshake()` call. In the Handshaking state
the attempt outcome decides the status: completion yields `SUCCESS` and moves
to Established, blocking yields `WANT_READ`/`WANT_WRITE` with no state change,
a fatal error yields `FAILED` and moves to Closed/Failed. In the terminal
Closed/Failed state every operation indicates failure. -/
def handshake {α : Type} (a : HSAttempt) (s : Session α) : Int × Session α :=
  match s.state with
  | SessState.failed => (FAILED, s)
  | SessState.established => (SUCCESS, s)
  | SessState.handshaking =>
    match a with
    | HSAttempt.complete => (SUCCESS, { s with state := SessState.established })
    | HSAttempt.blockedRead => (WANT_READ, s)
    | HSAttempt.blockedWrite => (WANT_WRITE, s)
    | HSAttempt.error => (FAILED, { s with state := SessState.failed })

/-- Modelled from the spec: one `read(buffer, length)` call, valid once
Established. A positive return is the non-zero byte count moved (at most
`length`); zero forward progress is reported as `WANT_READ`, never as 0;
a fatal error (including transport closure) yields `FAILED` and moves to
Closed/Failed. In the terminal Closed/Failed state it indicates failure. -/
def read {α : Type} (a : IOAttempt) (s : Session α) (length : Nat) :
    Int × Session α :=
  match s.state with
  | SessState.failed => (FAILED, s)
  | SessState.handshaking => (FAILED, { s with state := SessState.failed })
  | SessState.established =>
    match a with
    | IOAttempt.progress n =>
      if min n length = 0 then (WANT_READ, s)
      else ((min n length : Nat), s)
    | IOAttempt.blockedRead => (WANT_READ, s)
    | IOAttempt.blockedWrite => (WANT_WRITE, s)
    | IOAttempt.error => (FAILED, { s with state := SessState.failed })

/-- Modelled from the spec: one `write(buffer, length)` call, valid once
Established; mirrors `read`, with zero forward progress reported as
`WANT_WRITE`. -/
def write {α : Type} (a : IOAttempt) (s : Session α) (length : Nat) :
    Int × Session α :=
  match s.state with
  | SessState.failed => (FAILED, s)
  | SessState.handshaking => (FAILED, { s with state := SessState.failed })
  | SessState.established =>
    match a with
    | IOAttempt.progress n =>
      if min n length = 0 then (WANT_WRITE, s)
      else ((min n length : Nat), s)
    | IOAttempt.blockedRead => (WANT_READ, s)
    | IOAttempt.blockedWrite => (WANT_WRITE, s)
    | IOAttempt.error => (FAILED, { s with state := SessState.failed })

/-! ### Operation sequences -/

/-- Modelled from the spec: the operations a caller may perform on a policy.
`createSession` stands for any `create_session` call (its session arguments
do not affect the policy beyond locking it). -/
inductive PolicyOp where
  | setCA (d : List Nat)
  | setCert (d : List Nat)
  | setKey (d : List Nat) (password : Option String)
  | setVerifyPeers (rules : List (List Nat))
  | createSession
deriving DecidableEq, Repr

/-- One policy operation: the boolean result and the successor policy. -/
def policyStep (b : Backend) (p : Policy) (op : PolicyOp) : Bool × Policy :=
  match op with
  | PolicyOp.setCA d => set_ca_data b p d
  | PolicyOp.setCert d => set_cert_data b p d
  | PolicyOp.setKey d pw => set_key_data b p d pw
  | PolicyOp.setVerifyPeers rs => set_verify_peers b p rs
  | PolicyOp.createSession => (true, { p with locked := true })

/-- The policy reached after a sequence of operations. -/
def policySteps (b : Backend) (p : Policy) (ops : List PolicyOp) : Policy :=
  ops.foldl (fun q op => (policyStep b q op).2) p

/-- Modelled from the spec: the operations a caller may perform on a session,
each carrying the backend attempt outcome for that call. -/
inductive SessOp where
  | hsOp (a : HSAttempt)
  | readOp (a : IOAttempt) (length : Nat)
  | writeOp (a : IOAttempt) (length : Nat)
deriving DecidableEq, Repr

/-- One session operation: the integer status and the successor session. -/
def sessStep {α : Type} (s : Session α) (op : SessOp) : Int × Session α :=
  match op with
  | SessOp.hsOp a => handshake a s
  | SessOp.readOp a len => read a s len
  | SessOp.writeOp a len => write a s len

/-- Runs a sequence of session operations, collecting the returned statuses
and the final session. -/
def sessRun {α : Type} (s : Session α) : List SessOp → List Int × Session α
  | [] => ([], s)
  | op :: ops =>
    let r := sessStep s op
    let rest := sessRun r.2 ops
    (r.1 :: rest.1, rest.2)

/-- True when every status in the list is `FAILED`. -/
def allFailed (rs : List Int) : Bool :=
  rs.all (fun r => r == FAILED)

/-- Modelled from the spec: the session invokes its send callback, providing
`send_ctx` to it verbatim. -/
def invokeSend {α : Type} (s : Session α) (buf : List Nat) : Int :=
  s.send_func s.send_ctx buf

/-- Modelled from the spec: the session invokes its receive callback,
providing `recv_ctx` to it verbatim. -/
def invokeRecv {α : Type} (s : Session α) (buf : List Nat) : Int :=
  s.recv_func s.recv_ctx buf

/-! ### Transport callback return contract (ITLSPlugin.h lines 52-58)

A `TLSSendCallbackFunc`/`TLSRecvCallbackFunc` returns the number of bytes
transferred (possibly 0), or -1 on error (including connection close). -/

/-- Whether a transport callback return value denotes a transport error,
per the comment on the callback typedefs: only -1 denotes error. -/
def transport_ret_is_error (r : Int) : Bool :=
  r == -1

/-- Modelled from the spec: how a session interprets a raw transport callback
return value as an attempt outcome: -1 is a fatal transport error, any
non-negative value is that many bytes of forward progress (0 meaning none). -/
def transportRetToAttempt (r : Int) : IOAttempt :=
  if r == -1 then IOAttempt.error else IOAttempt.progress r.toNat

/-! ### Concrete instances used to evaluate the theorems -/

/-- A backend that rejects all configuration material. -/
def bReject : Backend :=
  ⟨fun _ => false, fun _ => false, fun _ _ => false, fun _ => false⟩

/-- A fresh, unlocked, empty policy. -/
def p0 : Policy :=
  ⟨⟨none, none, none, []⟩, false⟩

/-- An established session over trivial transport callbacks. -/
def sessW : Session Unit :=
  ⟨SessState.established, true, "srv", fun _ _ => 0, (), fun _ _ => 0, (), ()⟩

/-! ### Theorems -/

/-- C8: the four session status codes have the exact values SUCCESS = 0,
WANT_READ = -1, WANT_WRITE = -2, FAILED = -3; they are pairwise distinct and
non-positive, so a strictly positive return value from read or write never
collides with a status code. -/
theorem status_codes_distinct_nonpositive :
    SUCCESS = 0 ∧ WANT_READ = -1 ∧ WANT_WRITE = -2 ∧ FAILED = -3 ∧
    SUCCESS ≠ WANT_READ ∧ SUCCESS ≠ WANT_WRITE ∧ SUCCESS ≠ FAILED ∧
    WANT_READ ≠ WANT_WRITE ∧ WANT_READ ≠ FAILED ∧ WANT_WRITE ≠ FAILED ∧
    SUCCESS ≤ 0 ∧ WANT_READ ≤ 0 ∧ WANT_WRITE ≤ 0 ∧ FAILED ≤ 0 ∧
    (∀ r : Int, 0 < r →
      r ≠ SUCCESS ∧ r ≠ WANT_READ ∧ r ≠ WANT_WRITE ∧ r ≠ FAILED) := by
  refine ⟨rfl, rfl, rfl, rfl, ?_, ?_, ?_, ?_, ?_, ?_, ?_, ?_, ?_, ?_, ?_⟩ <;>
    first
    | decide
    | (intro r hr
       refine ⟨?_, ?_, ?_, ?_⟩ <;>
         (intro h; rw [h] at hr;
          simp [SUCCESS, WANT_READ, WANT_WRITE, FAILED] at hr))

/-- Witness for C8: 5 is strictly positive and is none of the status codes. -/
theorem status_codes_distinct_nonpositive_witness :
    (0 : Int) < 5 ∧ ((5 : Int) ≠ SUCCESS ∧ (5 : Int) ≠ WANT_READ ∧
      (5 : Int) ≠ WANT_WRITE ∧ (5 : Int) ≠ FAILED) :=
  ⟨by decide,
   status_codes_distinct_nonpositive.2.2.2.2.2.2.2.2.2.2.2.2.2.2 5 (by decide)⟩

/-- C9: `get_plugin_type_name_and_version` returns the same constant,
non-null string on every call, identifying the plugin type. -/
theorem get_plugin_type_name_and_version_constant :
    (∀ u v : Unit,
      get_plugin_type_name_and_version u = get_plugin_type_name_and_version v) ∧
    (∀ u : Unit, get_plugin_type_name_and_version u ≠ none) ∧
    (∀ u : Unit, get_plugin_type_name_and_version u = some "ITLSPlugin") :=
  ⟨fun _ _ => rfl, fun _ => by simp [get_plugin_type_name_and_version],
   fun _ => rfl⟩

/-- C3: `handshake` always returns exactly one of the four status codes
SUCCESS, WANT_READ, WANT_WRITE, FAILED — never a positive transfer count or
any other value. -/
theorem handshake_returns_status_code {α : Type} (a : HSAttempt)
    (s : Session α) :
    ((handshake a s).1 = SUCCESS ∨ (handshake a s).1 = WANT_READ ∨
      (handshake a s).1 = WANT_WRITE ∨ (handshake a s).1 = FAILED) ∧
    (handshake a s).1 ≤ 0 := by
  rcases s with ⟨st, ic, sn, sf, sc, rf, rc, uid⟩
  cases st <;> cases a <;>
    simp [handshake, SUCCESS, WANT_READ, WANT_WRITE, FAILED]

/-- On a locked policy every operation leaves the policy unchanged. -/
lemma policyStep_of_locked (b : Backend) (p : Policy) (h : p.locked = true)
    (op : PolicyOp) : (policyStep b p op).2 = p := by
  rcases p with ⟨cfg, lk⟩
  cases lk
  · simp at h
  · cases op <;> rfl

/-- On a locked policy every operation sequence leaves the policy
unchanged. -/
lemma policySteps_of_locked (b : Backend) (ops : List PolicyOp) :
    ∀ p : Policy, p.locked = true → policySteps b p ops = p := by
  induction ops with
  | nil => intro p _; rfl
  | cons op ops ih =>
    intro p h
    show policySteps b (policyStep b p op).2 ops = p
    rw [policyStep_of_locked b p h op]
    exact ih p h

/-- On a locked policy every `set_*` method returns false and leaves the
policy unchanged. -/
lemma set_all_fail_of_locked (b : Backend) (q : Policy) (h : q.locked = true)
    (d : List Nat) (pw : Option String) (rules : List (List Nat)) :
    (set_ca_data b q d).1 = false ∧ (set_ca_data b q d).2 = q ∧
    (set_cert_data b q d).1 = false ∧ (set_cert_data b q d).2 = q ∧
    (set_key_data b q d pw).1 = false ∧ (set_key_data b q d pw).2 = q ∧
    (set_verify_peers b q rules).1 = false ∧
    (set_verify_peers b q rules).2 = q := by
  simp [set_ca_data, set_cert_data, set_key_data, set_verify_peers, h]

/-- C1: once `create_session` has been called on a policy, every subsequent
call to `set_ca_data`, `set_cert_data`, `set_key_data` or `set_verify_peers`
— after any further sequence of operations — returns false and leaves the
effective configuration exactly as it was just before that first
`create_session` call. -/
theorem set_fails_after_create_session {α : Type} (b : Backend) (p : Policy)
    (ic : Bool) (sn : String) (sf : α → List Nat → Int) (sc : α)
    (rf : α → List Nat → Int) (rc : α) (uid : α) (ops : List PolicyOp)
    (d : List Nat) (pw : Option String) (rules : List (List Nat)) :
    let p2 := policySteps b (create_session p ic sn sf sc rf rc uid).2 ops
    p2.locked = true ∧ p2.config = p.config ∧
    (set_ca_data b p2 d).1 = false ∧ (set_ca_data b p2 d).2.config = p.config ∧
    (set_cert_data b p2 d).1 = false ∧
    (set_cert_data b p2 d).2.config = p.config ∧
    (set_key_data b p2 d pw).1 = false ∧
    (set_key_data b p2 d pw).2.config = p.config ∧
    (set_verify_peers b p2 rules).1 = false ∧
    (set_verify_peers b p2 rules).2.config = p.config := by
  intro p2
  have h2 : p2 = (create_session p ic sn sf sc rf rc uid).2 :=
    policySteps_of_locked b ops _ rfl
  have hl : p2.locked = true := by rw [h2]; rfl
  have hc : p2.config = p.config := by rw [h2]; rfl
  obtain ⟨a1, a2, a3, a4, a5, a6, a7, a8⟩ :=
    set_all_fail_of_locked b p2 hl d pw rules
  exact ⟨hl, hc, a1, by rw [a2]; exact hc, a3, by rw [a4]; exact hc,
    a5, by rw [a6]; exact hc, a7, by rw [a8]; exact hc⟩

/-- C6: a `set_*` call that returns false leaves the policy unchanged — no
partial application; `set_verify_peers` either installs the whole rule list
or changes nothing; `set_key_data` whose key material is rejected by the
backend (for example a wrong passphrase) fails without altering anything. -/
theorem set_failure_is_atomic (b : Backend) (p : Policy) (d : List Nat)
    (pw : Option String) (rules : List (List Nat)) :
    ((set_ca_data b p d).1 = false → (set_ca_data b p d).2 = p) ∧
    ((set_cert_data b p d).1 = false → (set_cert_data b p d).2 = p) ∧
    ((set_key_data b p d pw).1 = false → (set_key_data b p d pw).2 = p) ∧
    ((set_verify_peers b p rules).1 = false →
      (set_verify_peers b p rules).2 = p) ∧
    (((set_verify_peers b p rules).1 = true ∧
        (set_verify_peers b p rules).2.config.verify_peers = rules) ∨
      ((set_verify_peers b p rules).1 = false ∧
        (set_verify_peers b p rules).2 = p)) ∧
    (b.key_ok d pw = false →
      (set_key_data b p d pw).1 = false ∧ (set_key_data b p d pw).2 = p) := by
  refine ⟨?_, ?_, ?_, ?_, ?_, ?_⟩
  · unfold set_ca_data
    split
    · intro _; rfl
    · split
      · intro h; simp at h
      · intro _; rfl
  · unfold set_cert_data
    split
    · intro _; rfl
    · split
      · intro h; simp at h
      · intro _; rfl
  · unfold set_key_data
    split
    · intro _; rfl
    · split
      · intro h; simp at h
      · intro _; rfl
  · unfold set_verify_peers
    split
    · intro _; rfl
    · split
      · intro h; simp at h
      · intro _; rfl
  · unfold set_verify_peers
    split
    · right; exact ⟨rfl, rfl⟩
    · split
      · left; exact ⟨rfl, rfl⟩
      · right; exact ⟨rfl, rfl⟩
  · intro hk
    cases hl : p.locked <;> simp [set_key_data, hk, hl]

/-- Witness for C6: with a backend that rejects all material, `set_ca_data`
on a fresh policy returns false and leaves the policy unchanged. -/
theorem set_failure_is_atomic_witness :
    (set_ca_data bReject p0 [1]).1 = false ∧
    (set_ca_data bReject p0 [1]).2 = p0 :=
  ⟨rfl, (set_failure_is_atomic bReject p0 [1] none []).1 rfl⟩

/-- On a session in the terminal Closed/Failed state every operation returns
`FAILED` and leaves the session unchanged. -/
lemma sessStep_of_failed {α : Type} (s : Session α)
    (h : s.state = SessState.failed) (op : SessOp) :
    sessStep s op = (FAILED, s) := by
  rcases s with ⟨st, ic, sn, sf, sc, rf, rc, uid⟩
  cases st with
  | handshaking => simp at h
  | established => simp at h
  | failed => cases op <;> rfl

/-- Any operation that returns `FAILED` leaves the session in the terminal
Closed/Failed state. -/
lemma state_failed_of_FAILED {α : Type} (s : Session α) (op : SessOp)
    (h : (sessStep s op).1 = FAILED) :
    (sessStep s op).2.state = SessState.failed := by
  rcases s with ⟨st, ic, sn, sf, sc, rf, rc, uid⟩
  cases op with
  | hsOp a =>
    cases st with
    | failed => rfl
    | established => simp [sessStep, handshake, SUCCESS, FAILED] at h
    | handshaking =>
      cases a with
      | complete => simp [sessStep, handshake, SUCCESS, FAILED] at h
      | blockedRead => simp [sessStep, handshake, WANT_READ, FAILED] at h
      | blockedWrite => simp [sessStep, handshake, WANT_WRITE, FAILED] at h
      | error => rfl
  | readOp a len =>
    cases st with
    | failed => rfl
    | handshaking => rfl
    | established =>
      cases a with
      | progress n =>
        exfalso
        simp only [sessStep, read] at h
        split at h
        · simp [WANT_READ, FAILED] at h
        · have h' : ((min n len : Nat) : Int) = FAILED := h
          have hge : (0 : Int) ≤ ((min n len : Nat) : Int) :=
            Int.ofNat_nonneg _
          rw [h'] at hge
          simp [FAILED] at hge
      | blockedRead => simp [sessStep, read, WANT_READ, FAILED] at h
      | blockedWrite => simp [sessStep, read, WANT_WRITE, FAILED] at h
      | error => rfl
  | writeOp a len =>
    cases st with
    | failed => rfl
    | handshaking => rfl
    | established =>
      cases a with
      | progress n =>
        exfalso
        simp only [sessStep, write] at h
        split at h
        · simp [WANT_WRITE, FAILED] at h
        · have h' : ((min n len : Nat) : Int) = FAILED := h
          have hge : (0 : Int) ≤ ((min n len : Nat) : Int) :=
            Int.ofNat_nonneg _
          rw [h'] at hge
          simp [FAILED] at hge
      | blockedRead => simp [sessStep, write, WANT_READ, FAILED] at h
      | blockedWrite => simp [sessStep, write, WANT_WRITE, FAILED] at h
      | error => rfl

/-- From the terminal Closed/Failed state every operation sequence returns
only `FAILED` statuses and stays in the Closed/Failed state. -/
lemma sessRun_of_failed {α : Type} (ops : List SessOp) :
    ∀ s : Session α, s.state = SessState.failed →
      allFailed (sessRun s ops).1 = true ∧
      (sessRun s ops).2.state = SessState.failed := by
  induction ops with
  | nil => intro s h; exact ⟨rfl, h⟩
  | cons op ops ih =>
    intro s h
    have hstep := sessStep_of_failed s h op
    obtain ⟨ih1, ih2⟩ := ih s h
    constructor
    · show allFailed ((sessStep s op).1 :: (sessRun (sessStep s op).2 ops).1)
        = true
      rw [hstep]
      simpa [allFailed] using ih1
    · show (sessRun (sessStep s op).2 ops).2.state = SessState.failed
      rw [hstep]
      exact ih2

/-- C2: once an operation on a session returns `FAILED`, the session is in
the terminal Closed/Failed state and every subsequent operation also returns
`FAILED` — never `SUCCESS`, a positive byte count, `WANT_READ` or
`WANT_WRITE`. -/
theorem failed_is_terminal {α : Type} (s : Session α) (op : SessOp)
    (h : (sessStep s op).1 = FAILED) (ops : List SessOp) :
    (sessStep s op).2.state = SessState.failed ∧
    allFailed (sessRun (sessStep s op).2 ops).1 = true ∧
    (sessRun (sessStep s op).2 ops).2.state = SessState.failed := by
  have h1 := state_failed_of_FAILED s op h
  obtain ⟨h2, h3⟩ := sessRun_of_failed ops (sessStep s op).2 h1
  exact ⟨h1, h2, h3⟩

/-- Witness for C2: after a read error on an established session, a
handshake call and a write call both return `FAILED`. -/
theorem failed_is_terminal_witness :
    (sessStep sessW (SessOp.readOp IOAttempt.error 4)).1 = FAILED ∧
    allFailed (sessRun (sessStep sessW (SessOp.readOp IOAttempt.error 4)).2
      [SessOp.hsOp HSAttempt.complete,
       SessOp.writeOp (IOAttempt.progress 3) 3]).1 = true :=
  ⟨rfl, (failed_is_terminal sessW (SessOp.readOp IOAttempt.error 4) rfl
    [SessOp.hsOp HSAttempt.complete,
     SessOp.writeOp (IOAttempt.progress 3) 3]).2.1⟩

/-- C5: whenever an operation returns `WANT_READ` or `WANT_WRITE` the
session is completely unchanged (the operation is retryable), whereas a
`FAILED` return puts the session in the terminal Closed/Failed state. -/
theorem want_is_retryable_failed_is_fatal {α : Type} (s : Session α)
    (op : SessOp) :
    (((sessStep s op).1 = WANT_READ ∨ (sessStep s op).1 = WANT_WRITE) →
      (sessStep s op).2 = s) ∧
    ((sessStep s op).1 = FAILED →
      (sessStep s op).2.state = SessState.failed) := by
  refine ⟨?_, state_failed_of_FAILED s op⟩
  intro hw
  rcases s with ⟨st, ic, sn, sf, sc, rf, rc, uid⟩
  cases op with
  | hsOp a =>
    cases st with
    | failed =>
      rcases hw with hw | hw <;>
        simp [sessStep, handshake, FAILED, WANT_READ, WANT_WRITE] at hw
    | established =>
      rcases hw with hw | hw <;>
        simp [sessStep, handshake, SUCCESS, WANT_READ, WANT_WRITE] at hw
    | handshaking =>
      cases a with
      | complete =>
        rcases hw with hw | hw <;>
          simp [sessStep, handshake, SUCCESS, WANT_READ, WANT_WRITE] at hw
      | blockedRead => rfl
      | blockedWrite => rfl
      | error =>
        rcases hw with hw | hw <;>
          simp [sessStep, handshake, FAILED, WANT_READ, WANT_WRITE] at hw
  | readOp a len =>
    cases st with
    | failed =>
      rcases hw with hw | hw <;>
        simp [sessStep, read, FAILED, WANT_READ, WANT_WRITE] at hw
    | handshaking =>
      rcases hw with hw | hw <;>
        simp [sessStep, read, FAILED, WANT_READ, WANT_WRITE] at hw
    | established =>
      cases a with
      | progress n =>
        by_cases hmin : min n len = 0
        · simp [sessStep, read, hmin]
        · exfalso
          simp only [sessStep, read, if_neg hmin] at hw
          rcases hw with hw | hw
          · have hw' : ((min n len : Nat) : Int) = WANT_READ := hw
            simp [WANT_READ] at hw'
            omega
          · have hw' : ((min n len : Nat) : Int) = WANT_WRITE := hw
            simp [WANT_WRITE] at hw'
            omega
      | blockedRead => rfl
      | blockedWrite => rfl
      | error =>
        rcases hw with hw | hw <;>
          simp [sessStep, read, FAILED, WANT_READ, WANT_WRITE] at hw
  | writeOp a len =>
    cases st with
    | failed =>
      rcases hw with hw | hw <;>
        simp [sessStep, write, FAILED, WANT_READ, WANT_WRITE] at hw
    | handshaking =>
      rcases hw with hw | hw <;>
        simp [sessStep, write, FAILED, WANT_READ, WANT_WRITE] at hw
    | established =>
      cases a with
      | progress n =>
        by_cases hmin : min n len = 0
        · simp [sessStep, write, hmin]
        · exfalso
          simp only [sessStep, write, if_neg hmin] at hw
          rcases hw with hw | hw
          · have hw' : ((min n len : Nat) : Int) = WANT_READ := hw
            simp [WANT_READ] at hw'
            omega
          · have hw' : ((min n len : Nat) : Int) = WANT_WRITE := hw
            simp [WANT_WRITE] at hw'
            omega
      | blockedRead => rfl
      | blockedWrite => rfl
      | error =>
        rcases hw with hw | hw <;>
          simp [sessStep, write, FAILED, WANT_READ, WANT_WRITE] at hw

/-- Witness for C5: on an established session a blocked read leaves the
session unchanged, and a write error moves it to Closed/Failed. -/
theorem want_is_retryable_failed_is_fatal_witness :
    (sessStep sessW (SessOp.readOp IOAttempt.blockedRead 4)).2 = sessW ∧
    (sessStep sessW (SessOp.writeOp IOAttempt.error 4)).2.state
      = SessState.failed :=
  ⟨(want_is_retryable_failed_is_fatal sessW
      (SessOp.readOp IOAttempt.blockedRead 4)).1 (Or.inl rfl),
   (want_is_retryable_failed_is_fatal sessW
      (SessOp.writeOp IOAttempt.error 4)).2 rfl⟩

/-- C4: on an established session, `read`/`write` never return 0; a positive
return is exactly the non-zero number of bytes the backend moved; and an
attempt that moves zero bytes is reported as `WANT_READ`/`WANT_WRITE`
instead of 0. -/
theorem positive_return_is_byte_count {α : Type} (s : Session α)
    (h : s.state = SessState.established) (a : IOAttempt) (len : Nat) :
    (read a s len).1 ≠ 0 ∧ (write a s len).1 ≠ 0 ∧
    (0 < (read a s len).1 → ∃ n : Nat, a = IOAttempt.progress n ∧
      (read a s len).1 = ((min n len : Nat) : Int) ∧ 0 < min n len) ∧
    (0 < (write a s len).1 → ∃ n : Nat, a = IOAttempt.progress n ∧
      (write a s len).1 = ((min n len : Nat) : Int) ∧ 0 < min n len) ∧
    (∀ n : Nat, a = IOAttempt.progress n → min n len = 0 →
      (read a s len).1 = WANT_READ ∧ (write a s len).1 = WANT_WRITE) := by
  rcases s with ⟨st, ic, sn, sf, sc, rf, rc, uid⟩
  cases st with
  | handshaking => simp at h
  | failed => simp at h
  | established =>
    cases a with
    | progress n =>
      by_cases hmin : min n len = 0
      · refine ⟨?_, ?_, ?_, ?_, ?_⟩
        · simp [read, hmin, WANT_READ]
        · simp [write, hmin, WANT_WRITE]
        · intro hp
          simp [read, hmin, WANT_READ] at hp
        · intro hp
          simp [write, hmin, WANT_WRITE] at hp
        · intro m hm _
          cases hm
          exact ⟨by simp [read, hmin, WANT_READ],
            by simp [write, hmin, WANT_WRITE]⟩
      · refine ⟨?_, ?_, ?_, ?_, ?_⟩
        · simp only [read, if_neg hmin]
          intro hz
          have hz' : ((min n len : Nat) : Int) = 0 := hz
          omega
        · simp only [write, if_neg hmin]
          intro hz
          have hz' : ((min n len : Nat) : Int) = 0 := hz
          omega
        · intro _
          refine ⟨n, rfl, ?_, Nat.pos_of_ne_zero hmin⟩
          simp only [read]
          rw [if_neg hmin]
        · intro _
          refine ⟨n, rfl, ?_, Nat.pos_of_ne_zero hmin⟩
          simp only [write]
          rw [if_neg hmin]
        · intro m hm hm0
          cases hm
          exact absurd hm0 hmin
    | blockedRead =>
      refine ⟨by simp [read, WANT_READ], by simp [write, WANT_READ], ?_, ?_,
        fun m hm _ => by cases hm⟩
      · intro hp; simp [read, WANT_READ] at hp
      · intro hp; simp [write, WANT_READ] at hp
    | blockedWrite =>
      refine ⟨by simp [read, WANT_WRITE], by simp [write, WANT_WRITE], ?_, ?_,
        fun m hm _ => by cases hm⟩
      · intro hp; simp [read, WANT_WRITE] at hp
      · intro hp; simp [write, WANT_WRITE] at hp
    | error =>
      refine ⟨by simp [read, FAILED], by simp [write, FAILED], ?_, ?_,
        fun m hm _ => by cases hm⟩
      · intro hp; simp [read, FAILED] at hp
      · intro hp; simp [write, FAILED] at hp

/-- Witness for C4: on an established session a 2-byte transfer returns 2
(non-zero), and a zero-byte transfer is reported as `WANT_READ`, not 0. -/
theorem positive_return_is_byte_count_witness :
    sessW.state = SessState.established ∧
    (read (IOAttempt.progress 2) sessW 5).1 ≠ 0 ∧
    (read (IOAttempt.progress 0) sessW 5).1 = WANT_READ :=
  ⟨rfl,
   (positive_return_is_byte_count sessW rfl (IOAttempt.progress 2) 5).1,
   ((positive_return_is_byte_count sessW rfl (IOAttempt.progress 0)
      5).2.2.2.2 0 rfl rfl).1⟩

/-- One session operation never changes the transport binding (callbacks,
contexts) of the session. -/
lemma sessStep_preserves_binding {α : Type} (s : Session α) (op : SessOp) :
    (sessStep s op).2.send_func = s.send_func ∧
    (sessStep s op).2.send_ctx = s.send_ctx ∧
    (sessStep s op).2.recv_func = s.recv_func ∧
    (sessStep s op).2.recv_ctx = s.recv_ctx := by
  rcases s with ⟨st, ic, sn, sf, sc, rf, rc, uid⟩
  cases op with
  | hsOp a => cases st <;> cases a <;> exact ⟨rfl, rfl, rfl, rfl⟩
  | readOp a len =>
    cases st <;> cases a <;>
      first
      | exact ⟨rfl, rfl, rfl, rfl⟩
      | (simp only [sessStep, read]
         split <;> exact ⟨rfl, rfl, rfl, rfl⟩)
  | writeOp a len =>
    cases st <;> cases a <;>
      first
      | exact ⟨rfl, rfl, rfl, rfl⟩
      | (simp only [sessStep, write]
         split <;> exact ⟨rfl, rfl, rfl, rfl⟩)

/-- No operation sequence changes the transport binding of a session. -/
lemma sessRun_preserves_binding {α : Type} (ops : List SessOp) :
    ∀ s : Session α,
      (sessRun s ops).2.send_func = s.send_func ∧
      (sessRun s ops).2.send_ctx = s.send_ctx ∧
      (sessRun s ops).2.recv_func = s.recv_func ∧
      (sessRun s ops).2.recv_ctx = s.recv_ctx := by
  induction ops with
  | nil => intro s; exact ⟨rfl, rfl, rfl, rfl⟩
  | cons op ops ih =>
    intro s
    obtain ⟨h1, h2, h3, h4⟩ := ih (sessStep s op).2
    obtain ⟨g1, g2, g3, g4⟩ := sessStep_preserves_binding s op
    exact ⟨h1.trans g1, h2.trans g2, h3.trans g3, h4.trans g4⟩

/-- C7: a session created by `create_session` keeps exactly the transport
callbacks and context pointers it was created with, across its whole
lifetime, and every callback invocation passes the corresponding context
pointer back verbatim. -/
theorem session_callbacks_fixed {α : Type} (p : Policy) (ic : Bool)
    (sn : String) (sf : α → List Nat → Int) (sc : α)
    (rf : α → List Nat → Int) (rc : α) (uid : α) (ops : List SessOp) :
    let s1 := (sessRun (create_session p ic sn sf sc rf rc uid).1 ops).2
    s1.send_func = sf ∧ s1.send_ctx = sc ∧
    s1.recv_func = rf ∧ s1.recv_ctx = rc ∧
    (∀ buf : List Nat, invokeSend s1 buf = sf sc buf) ∧
    (∀ buf : List Nat, invokeRecv s1 buf = rf rc buf) := by
  intro s1
  obtain ⟨h1, h2, h3, h4⟩ :=
    sessRun_preserves_binding ops (create_session p ic sn sf sc rf rc uid).1
  refine ⟨h1, h2, h3, h4, ?_, ?_⟩
  · intro buf
    show s1.send_func s1.send_ctx buf = sf sc buf
    rw [show s1.send_func = sf from h1, show s1.send_ctx = sc from h2]
  · intro buf
    show s1.recv_func s1.recv_ctx buf = rf rc buf
    rw [show s1.recv_func = rf from h3, show s1.recv_ctx = rc from h4]

/-- C10: a transport callback return of 0 is a valid non-error outcome,
distinct from the error value -1; only -1 denotes transport error, and an
established session treats a zero return as lack of progress
(`WANT_READ`/`WANT_WRITE`), never as failure. -/
theorem transport_zero_not_error {α : Type} (s : Session α)
    (h : s.state = SessState.established) (len : Nat) :
    transport_ret_is_error 0 = false ∧
    transport_ret_is_error (-1) = true ∧
    (∀ r : Int, transport_ret_is_error r = true ↔ r = -1) ∧
    transportRetToAttempt 0 = IOAttempt.progress 0 ∧
    transportRetToAttempt 0 ≠ IOAttempt.error ∧
    (read (transportRetToAttempt 0) s len).1 = WANT_READ ∧
    (read (transportRetToAttempt 0) s len).1 ≠ FAILED ∧
    (write (transportRetToAttempt 0) s len).1 = WANT_WRITE ∧
    (write (transportRetToAttempt 0) s len).1 ≠ FAILED := by
  rcases s with ⟨st, ic, sn, sf, sc, rf, rc, uid⟩
  cases st with
  | handshaking => simp at h
  | failed => simp at h
  | established =>
    refine ⟨rfl, rfl, ?_, rfl, by decide, ?_, ?_, ?_, ?_⟩
    · intro r
      simp [transport_ret_is_error]
    · simp [transportRetToAttempt, read, WANT_READ]
    · simp [transportRetToAttempt, read, WANT_READ, FAILED]
    · simp [transportRetToAttempt, write, WANT_WRITE]
    · simp [transportRetToAttempt, write, WANT_WRITE, FAILED]

/-- Witness for C10: on a concrete established session a zero transport
return is interpreted as `WANT_READ`, and 0 is not the error value. -/
theorem transport_zero_not_error_witness :
    sessW.state = SessState.established ∧
    transport_ret_is_error 0 = false ∧
    (read (transportRetToAttempt 0) sessW 4).1 = WANT_READ :=
  ⟨rfl, (transport_zero_not_error sessW rfl 4).1,
   (transport_zero_not_error sessW rfl 4).2.2.2.2.2.1⟩

end ITLS
